import Mathlib

/-!
Verification of the SLED recording pipeline (heudiasyc/SLED).

The definitions below are shallow embeddings of the per-tick LiDAR
merge/decimate logic and session bookkeeping of `generate_sequence.py`,
the sensor-queue handling of `ego_vehicle.py`, the spawn-retry loops of
`generate_sequence.py` with `ai_vehicle.py` / `ai_pedestrian.py`, and the
timestamp-driven replay loop of `visualize_recording.py`.

Conventions: simulation timestamps (Python doubles) are modelled as `ℚ`;
a point-cloud payload (an N x 4 numpy array) is modelled as the list of
its rows, each row abstracted to a single `ℚ` entry, so that positional
concatenation (`np.concatenate(..., axis=0)`) is list append and the row
count is the list length.  Fallible I/O operations are modelled as
`Except`-valued parameters.
-/

namespace SLED

/-- One sensor measurement as buffered in a sensor queue
(`ego_vehicle.py`: the `listen(queue.append)` callbacks): a payload and
the simulation timestamp assigned by the producing sensor. -/
structure Frame where
  payload : List ℚ
  timestamp : ℚ

deriving instance DecidableEq for Frame

instance : Inhabited Frame := ⟨⟨[], 0⟩⟩

/-- Python `int(x)` (truncation toward zero), used for
`ticks_to_discard = int(args.discard_duration * args.hz)` and
`ticks_to_record = int(args.duration * args.hz)`
(`generate_sequence.py` lines 82-83). -/
def pyInt (q : ℚ) : ℤ :=
  if q < 0 then ⌈q⌉ else ⌊q⌋

/-- `ticks_to_discard = int(args.discard_duration * args.hz)`
(`generate_sequence.py` line 82). -/
def ticksToDiscard (discardDuration hz : ℚ) : ℤ :=
  pyInt (discardDuration * hz)

/-- `ticks_to_record = int(args.duration * args.hz)`
(`generate_sequence.py` line 83). -/
def ticksToRecord (duration hz : ℚ) : ℤ :=
  pyInt (duration * hz)

/-- `keep_lidar_every_x_idx = args.hz // args.lidar_hz`
(`generate_sequence.py` line 89).  Both arguments are Python floats and
`//` on floats is mathematical floor division. -/
def keepLidarEveryXIdx (hz lidarHz : ℚ) : ℤ :=
  ⌊hz / lidarHz⌋

/-- `lidar_subpackets_per_pcl` (`generate_sequence.py` lines 169-172):
3 sub-emitters in Pandora (split-emitter) mode, 1 otherwise. -/
def lidarSubpacketsPerPcl (pandora : Bool) : ℕ :=
  if pandora then 3 else 1

/-- Stream Merger step (`generate_sequence.py` lines 173-179): when the
LiDAR queue holds at least `n` frames, pop the first `n` in FIFO order,
concatenate their payloads positionally, and stamp the result with the
first popped frame's timestamp (`ego_vehicle.lidar_queue[0].timestamp`);
otherwise do nothing this tick. -/
def mergeStep (n : ℕ) (queue : List Frame) : Option (Frame × List Frame) :=
  if n ≤ queue.length then
    match queue with
    | [] => none
    | f :: _ =>
      some ({ payload := ((queue.take n).map Frame.payload).flatten,
              timestamp := f.timestamp }, queue.drop n)
  else
    none

/-- The per-tick LiDAR state of the recording loop: the sensor queue
(`ego_vehicle.lidar_queue`), the decimation counter
(`current_lidar_idx`), and the retained clouds (`lidar_clouds_queue`). -/
structure LidarState where
  queue : List Frame
  idx : ℕ
  buffer : List Frame

deriving instance DecidableEq for LidarState

/-- One recording-loop tick of the LiDAR path
(`generate_sequence.py` lines 173-184): if at least `n` sub-packets are
queued, form the merged cloud, retain it iff
`current_lidar_idx % keep_lidar_every_x_idx == 0`, increment the
counter, and pop the `n` consumed sub-packets; otherwise leave the state
unchanged. -/
def lidarTick (n keepEvery : ℕ) (s : LidarState) : LidarState :=
  match mergeStep n s.queue with
  | none => s
  | some (cloud, rest) =>
    { queue := rest,
      idx := s.idx + 1,
      buffer := if s.idx % keepEvery = 0 then s.buffer ++ [cloud] else s.buffer }

/-- A run of the recording loop restricted to the LiDAR path: each tick,
`world.tick()` delivers that tick's sensor-callback frames (appended to
the queue by `lidar_queue.append`), then the merge/decimate block runs. -/
def lidarRun (n keepEvery : ℕ) (arrivals : List (List Frame)) (s : LidarState) :
    LidarState :=
  arrivals.foldl (fun st a => lidarTick n keepEvery { st with queue := st.queue ++ a }) s

/-- The LiDAR state at the start of the recording phase:
`lidar_clouds_queue = []`, `current_lidar_idx = 0`, and the sensor queue
just cleared by `ego_vehicle.clear_sensor_queues()`. -/
def initLidarState : LidarState :=
  ⟨[], 0, []⟩

/-- Number of counter values `i < m` passing the retention test
`i % keepEvery == 0` (the clouds retained among the first `m` formed). -/
def countKeep (keepEvery m : ℕ) : ℕ :=
  (List.range m).countP (fun i => i % keepEvery = 0)

/-- The frames delivered by the four sensor callbacks during one
`world.tick()` (`ego_vehicle.py` lines 60, 65, 84/88, 93: each callback
appends to its modality's queue). -/
structure Arrivals where
  dvs : List Frame
  depth : List Frame
  lidar : List Frame
  rgb : List Frame

/-- The state of one recording session: the four sensor queues of
`EgoVehicle` and the four recording buffers of `generate_sequence.py`
(`events_queue`, `depth_images_queue`, `lidar_clouds_queue`,
`rgb_images_queue`), plus the decimation counter. -/
structure SessionState where
  dvsQ : List Frame
  depthQ : List Frame
  lidarQ : List Frame
  rgbQ : List Frame
  eventsBuf : List Frame
  depthBuf : List Frame
  lidarBuf : List Frame
  rgbBuf : List Frame
  lidarIdx : ℕ

deriving instance DecidableEq for SessionState

/-- One `world.tick()` delivering this tick's callback output: each
sensor callback appends its frames to its own queue
(`self.dvs_queue.append`, etc.). -/
def pushArrivals (a : Arrivals) (s : SessionState) : SessionState :=
  { s with
    dvsQ := s.dvsQ ++ a.dvs,
    depthQ := s.depthQ ++ a.depth,
    lidarQ := s.lidarQ ++ a.lidar,
    rgbQ := s.rgbQ ++ a.rgb }

/-- `EgoVehicle.clear_sensor_queues` (`ego_vehicle.py` lines 165-170):
drops all buffered frames of all four sensor queues. -/
def clearSensorQueues (s : SessionState) : SessionState :=
  { s with dvsQ := [], depthQ := [], lidarQ := [], rgbQ := [] }

/-- The single-frame drain used for the events, depth and RGB modalities
(`generate_sequence.py` lines 143-147, 152-158, 189-194): if the queue is
non-empty, append the front frame to the recording buffer and pop it. -/
def drainSimple (q buf : List Frame) : List Frame × List Frame :=
  match q with
  | [] => (q, buf)
  | f :: rest => (rest, buf ++ [f])

/-- One tick of the recording loop (`generate_sequence.py` lines
112-196): `world.tick()` delivers the callbacks, then each modality is
drained — events, depth and RGB accept at most one frame, the LiDAR path
runs the Stream Merger and Decimator. -/
def recordTick (n keepEvery : ℕ) (a : Arrivals) (s : SessionState) : SessionState :=
  let s1 := pushArrivals a s
  let de := drainSimple s1.dvsQ s1.eventsBuf
  let dd := drainSimple s1.depthQ s1.depthBuf
  let dl := lidarTick n keepEvery ⟨s1.lidarQ, s1.lidarIdx, s1.lidarBuf⟩
  let dr := drainSimple s1.rgbQ s1.rgbBuf
  { dvsQ := de.1, depthQ := dd.1, lidarQ := dl.queue, rgbQ := dr.1,
    eventsBuf := de.2, depthBuf := dd.2, lidarBuf := dl.buffer, rgbBuf := dr.2,
    lidarIdx := dl.idx }

/-- The warm-up (discard) phase (`generate_sequence.py` lines 100-106):
the initial tick and every discard tick only advance the world — the
callbacks push into the queues and nothing is drained or recorded. -/
def warmPhase (warm : List Arrivals) (s : SessionState) : SessionState :=
  warm.foldl (fun st a => pushArrivals a st) s

/-- The session state before the first tick: empty queues, empty
recording buffers, decimation counter 0. -/
def initSession : SessionState :=
  ⟨[], [], [], [], [], [], [], [], 0⟩

/-- The data path of one session (`generate_sequence.py` lines 98-196):
warm-up ticks push callback output, `clear_sensor_queues()` runs at the
warm-up/recording boundary (line 109), then the recording ticks drain
into the recording buffers. -/
def session (n keepEvery : ℕ) (warm record : List Arrivals) : SessionState :=
  record.foldl (fun st a => recordTick n keepEvery a st)
    (clearSensorQueues (warmPhase warm initSession))

/-- One displayed frame of the replay loop of `visualize_recording.py`:
the reference emission at index `i` (`viz_events` together with the
lockstep `viz_depth_image`), a point cloud at LiDAR cursor `j`, or an
RGB image at RGB cursor `j`. -/
inductive Emit
  | ref : ℕ → Emit
  | lid : ℕ → Emit
  | rgb : ℕ → Emit

deriving instance DecidableEq for Emit

/-- Whether an emission is a reference (events) emission. -/
def Emit.isRef : Emit → Bool
  | .ref _ => true
  | _ => false

/-- Whether an emission is a point-cloud (LiDAR) emission. -/
def Emit.isLid : Emit → Bool
  | .lid _ => true
  | _ => false

/-- Whether an emission is an RGB emission. -/
def Emit.isRgb : Emit → Bool
  | .rgb _ => true
  | _ => false

/-- One reference step of the replay loop (`visualize_recording.py`
lines 127-143) at reference index `i` with reference timestamp `t`:
emit the reference frame; then, for LiDAR and RGB separately, if the
cursor is in bounds (the `try`/`except IndexError` guard) and the frame
at the cursor has timestamp `≤ t`, emit that frame and advance the
cursor by one — the code uses a single `if`, so at most one frame per
modality is emitted per reference step. -/
def replayStep (lidar rgb : List ℚ) (i : ℕ) (t : ℚ) (s : ℕ × ℕ) :
    (ℕ × ℕ) × List Emit :=
  let li : ℕ × List Emit :=
    if h : s.1 < lidar.length then
      if lidar.get ⟨s.1, h⟩ ≤ t then (s.1 + 1, [Emit.lid s.1]) else (s.1, [])
    else (s.1, [])
  let ri : ℕ × List Emit :=
    if h : s.2 < rgb.length then
      if rgb.get ⟨s.2, h⟩ ≤ t then (s.2 + 1, [Emit.rgb s.2]) else (s.2, [])
    else (s.2, [])
  ((li.1, ri.1), Emit.ref i :: (li.2 ++ ri.2))

/-- The replay loop from reference index `i` on, over the remaining
reference timestamps, threading the two modality cursors and collecting
the emission trace. -/
def replayAux (lidar rgb : List ℚ) : ℕ → List ℚ → ℕ × ℕ → (ℕ × ℕ) × List Emit
  | _, [], s => (s, [])
  | i, t :: ts, s =>
    let st := replayStep lidar rgb i t s
    let rest := replayAux lidar rgb (i + 1) ts st.1
    (rest.1, st.2 ++ rest.2)

/-- The full replay loop (`visualize_recording.py` lines 125-143):
`lidar_index = 0`, `rgb_index = 0`, then one reference step per events
index, in order.  (The interactive early-exit on the escape key is not
modelled: the run where the user never interrupts.)  The sequences are
represented by their timestamp lists. -/
def replayRun (events lidar rgb : List ℚ) : (ℕ × ℕ) × List Emit :=
  replayAux lidar rgb 0 events (0, 0)

/-- Modelled after the spec sentence of claim C1 (drain semantics): the
number of frames of a modality a single reference step would emit if it
drained every not-yet-emitted frame with timestamp `≤ t` starting at
cursor `c`. -/
def specDrainCount (seq : List ℚ) (c : ℕ) (t : ℚ) : ℕ :=
  ((seq.drop c).takeWhile (fun x => decide (x ≤ t))).length

/-- End of a successful recording loop (`generate_sequence.py` lines
202-214): `np.savez` writes the archive, then the `csv.writer` appends
the index row — straight-line code inside the `try`, with no handler
between the two, so a failure of either is propagated.  The two fallible
I/O operations are modelled by their outcomes; the returned flag records
whether the archive write completed. -/
def sessionTail (archive indexAppend : Except String Unit) :
    Except String Unit × Bool :=
  match archive with
  | .error e => (.error e, false)
  | .ok _ =>
    match indexAppend with
    | .error e => (.error e, true)
    | .ok _ => (.ok (), true)

/-- The simulated entities spawned by one session: the ego vehicle with
its attached sensors (`ego_vehicle.py` lines 37-93; one LiDAR actor, or
three in Pandora mode), the registered AI vehicles and the registered
pedestrians with their walker controllers. -/
inductive Actor
  | dvs : Actor
  | depthCam : Actor
  | lidarSensor : ℕ → Actor
  | rgbCam : Actor
  | egoVehicle : Actor
  | aiVehicle : ℕ → Actor
  | pedController : ℕ → Actor
  | pedWalker : ℕ → Actor

deriving instance DecidableEq for Actor

/-- The sensors attached to the ego vehicle, in the order
`EgoVehicle.destroy` destroys them (`ego_vehicle.py` lines 175-182):
DVS, depth camera, the LiDAR actor(s) (three in Pandora mode), RGB
camera. -/
def egoSensorsTrace (pandora : Bool) : List Actor :=
  [Actor.dvs, Actor.depthCam] ++
    (if pandora then [Actor.lidarSensor 0, Actor.lidarSensor 1, Actor.lidarSensor 2]
     else [Actor.lidarSensor 0]) ++
    [Actor.rgbCam]

/-- `EgoVehicle.destroy` (`ego_vehicle.py` lines 173-183): destroys the
attached sensors first, and finally the carried vehicle itself. -/
def egoDestroyTrace (pandora : Bool) : List Actor :=
  egoSensorsTrace pandora ++ [Actor.egoVehicle]

/-- The `finally` block of `generate_sequence.py` (lines 218-223):
destroy the ego vehicle, then every registered AI vehicle in
registration order, then every registered pedestrian — each pedestrian's
`destroy` stopping and destroying its controller before the walker
(`ai_pedestrian.py` lines 54-58). -/
def teardownTrace (pandora : Bool) (nVeh nPed : ℕ) : List Actor :=
  egoDestroyTrace pandora ++
    (List.range nVeh).map Actor.aiVehicle ++
    (List.range nPed).flatMap (fun i => [Actor.pedController i, Actor.pedWalker i])

/-- The entities alive after the spawn phase, listed in spawn order:
the ego vehicle and its sensors, the registered AI vehicles, and the
registered pedestrians with their controllers. -/
def spawnedActors (pandora : Bool) (nVeh nPed : ℕ) : List Actor :=
  ([Actor.egoVehicle, Actor.dvs, Actor.depthCam] ++
      (if pandora then [Actor.lidarSensor 0, Actor.lidarSensor 1, Actor.lidarSensor 2]
       else [Actor.lidarSensor 0]) ++
      [Actor.rgbCam]) ++
    (List.range nVeh).map Actor.aiVehicle ++
    (List.range nPed).flatMap (fun i => [Actor.pedWalker i, Actor.pedController i])

/-- The `try`/`finally` structure of `generate_sequence.py` (lines
98-223): whether the body reaches the end normally or raises anywhere in
the warm-up or recording loop, the `finally` block runs exactly once and
performs the teardown; the body's outcome is returned unchanged. -/
def runSession (body : Except String Unit) (pandora : Bool) (nVeh nPed : ℕ) :
    Except String Unit × List Actor :=
  match body with
  | .ok _ => (.ok (), teardownTrace pandora nVeh nPed)
  | .error e => (.error e, teardownTrace pandora nVeh nPed)

/-- The spawn-retry loop of `generate_sequence.py` (lines 70-72 and
75-78) combined with `AIVehicle.__init__` / `AIPedestrian.__init__`:
while fewer than `target` entities are registered, attempt a spawn at a
fresh random placement; a colliding attempt (`try_spawn_actor` returns
`None`) registers nothing and raises nothing, a successful attempt
registers exactly one entity.  `outcomes` is the oracle of attempt
results; the result is (number of attempts consumed, registered count). -/
def spawnLoop (target : ℕ) : List Bool → ℕ → ℕ × ℕ
  | [], n => (0, n)
  | o :: os, n =>
    if n < target then
      let r := spawnLoop target os (if o then n + 1 else n)
      (r.1 + 1, r.2)
    else (0, n)

/-! ## Helper lemmas -/

lemma mergeStep_of_lt (n : ℕ) (q : List Frame) (h : q.length < n) :
    mergeStep n q = none := by
  simp [mergeStep, Nat.not_le.mpr h]

lemma mergeStep_of_le (n : ℕ) (f : Frame) (rest : List Frame)
    (h : n ≤ (f :: rest).length) :
    mergeStep n (f :: rest) =
      some ({ payload := (((f :: rest).take n).map Frame.payload).flatten,
              timestamp := f.timestamp }, (f :: rest).drop n) := by
  simp only [mergeStep]
  rw [if_pos h]

lemma lidarTick_of_none (n k : ℕ) (s : LidarState)
    (h : mergeStep n s.queue = none) : lidarTick n k s = s := by
  simp [lidarTick, h]

lemma lidarTick_of_some (n k : ℕ) (s : LidarState) (c : Frame) (rest : List Frame)
    (h : mergeStep n s.queue = some (c, rest)) :
    lidarTick n k s =
      { queue := rest, idx := s.idx + 1,
        buffer := if s.idx % k = 0 then s.buffer ++ [c] else s.buffer } := by
  simp [lidarTick, h]

lemma countKeep_zero (k : ℕ) : countKeep k 0 = 0 := rfl

lemma countKeep_succ (k m : ℕ) :
    countKeep k (m + 1) = countKeep k m + (if m % k = 0 then 1 else 0) := by
  simp [countKeep, List.range_succ, List.countP_append, List.countP_cons]

lemma lidarTick_count (n k : ℕ) (s : LidarState)
    (h : s.buffer.length = countKeep k s.idx) :
    (lidarTick n k s).buffer.length = countKeep k (lidarTick n k s).idx := by
  cases hm : mergeStep n s.queue with
  | none => rw [lidarTick_of_none n k s hm]; exact h
  | some p =>
    rw [lidarTick_of_some n k s p.1 p.2 (by rw [hm])]
    by_cases hz : s.idx % k = 0 <;>
      simp [hz, countKeep_succ, h]

lemma lidarRun_cons (n k : ℕ) (a : List Frame) (arrivals : List (List Frame))
    (s : LidarState) :
    lidarRun n k (a :: arrivals) s =
      lidarRun n k arrivals (lidarTick n k { s with queue := s.queue ++ a }) := rfl

lemma lidarRun_count (n k : ℕ) (arrivals : List (List Frame)) :
    ∀ s : LidarState, s.buffer.length = countKeep k s.idx →
      (lidarRun n k arrivals s).buffer.length =
        countKeep k (lidarRun n k arrivals s).idx := by
  induction arrivals with
  | nil => intro s h; exact h
  | cons a as ih =>
    intro s h
    rw [lidarRun_cons]
    exact ih _ (lidarTick_count n k { s with queue := s.queue ++ a } h)

lemma ceil_step (k m : ℕ) (hk : 1 ≤ k) :
    (m + k) / k = (m + k - 1) / k + (if m % k = 0 then 1 else 0) := by
  have e : m + k = (m + k - 1) + 1 := by omega
  have hiff : (k ∣ (m + k - 1) + 1) ↔ (m % k = 0) := by
    rw [← e, Nat.dvd_add_self_right]
    exact Nat.dvd_iff_mod_eq_zero
  rw [e, Nat.succ_div, if_congr hiff rfl rfl]
  simp only [Nat.add_sub_cancel]

lemma countKeep_eq_ceil (k : ℕ) (hk : 1 ≤ k) :
    ∀ m, countKeep k m = (m + k - 1) / k := by
  intro m
  induction m with
  | zero => rw [countKeep_zero, Nat.zero_add, Nat.div_eq_of_lt (by omega)]
  | succ m ih =>
    have e : m + 1 + k - 1 = m + k := by omega
    rw [countKeep_succ, ih, e, ceil_step k m hk]

lemma countKeep_one (m : ℕ) : countKeep 1 m = m := by
  rw [countKeep_eq_ceil 1 (by omega) m]
  omega

lemma lidarTick_single (k : ℕ) (f : Frame) (s : LidarState) (h : s.queue = [f]) :
    (lidarTick 1 k s).idx = s.idx + 1 ∧ (lidarTick 1 k s).queue = [] := by
  have hm := mergeStep_of_le 1 f [] (by simp)
  rw [lidarTick_of_some 1 k s _ _ (by rw [h]; exact hm)]
  exact ⟨rfl, rfl⟩

lemma lidarRun_single (k : ℕ) (fs : List Frame) :
    ∀ s : LidarState, s.queue = [] →
      (lidarRun 1 k (fs.map fun f => [f]) s).idx = s.idx + fs.length ∧
      (lidarRun 1 k (fs.map fun f => [f]) s).queue = [] := by
  induction fs with
  | nil => intro s h; exact ⟨rfl, h⟩
  | cons f fs ih =>
    intro s h
    rw [List.map_cons, lidarRun_cons]
    have hq : ({ s with queue := s.queue ++ [f] } : LidarState).queue = [f] := by
      rw [h]; rfl
    obtain ⟨hidx, hqe⟩ := lidarTick_single k f _ hq
    obtain ⟨ih1, ih2⟩ := ih _ hqe
    refine ⟨?_, ih2⟩
    rw [ih1, hidx]
    simp only [List.length_cons]
    omega

lemma warmPhase_untouched (warm : List Arrivals) :
    ∀ s : SessionState,
      (warmPhase warm s).eventsBuf = s.eventsBuf ∧
      (warmPhase warm s).depthBuf = s.depthBuf ∧
      (warmPhase warm s).lidarBuf = s.lidarBuf ∧
      (warmPhase warm s).rgbBuf = s.rgbBuf ∧
      (warmPhase warm s).lidarIdx = s.lidarIdx := by
  induction warm with
  | nil => intro s; exact ⟨rfl, rfl, rfl, rfl, rfl⟩
  | cons a as ih =>
    intro s
    exact ih (pushArrivals a s)

lemma clear_after_warm (warm : List Arrivals) :
    clearSensorQueues (warmPhase warm initSession) = initSession := by
  obtain ⟨h1, h2, h3, h4, h5⟩ := warmPhase_untouched warm initSession
  simp only [initSession] at h1 h2 h3 h4 h5
  simp [clearSensorQueues, initSession, SessionState.mk.injEq, h1, h2, h3, h4, h5]

lemma specDrainCount_of_le (seq : List ℚ) (c : ℕ) (t : ℚ)
    (h : seq.length ≤ c) : specDrainCount seq c t = 0 := by
  simp [specDrainCount, List.drop_eq_nil_of_le h]

lemma min_one_drain (seq : List ℚ) (c : ℕ) (t : ℚ) :
    min 1 (specDrainCount seq c t) =
      if h : c < seq.length then (if seq.get ⟨c, h⟩ ≤ t then 1 else 0) else 0 := by
  by_cases h : c < seq.length
  · rw [dif_pos h]
    have hd : seq.drop c = seq.get ⟨c, h⟩ :: seq.drop (c + 1) := by
      rw [List.get_eq_getElem]
      exact List.drop_eq_getElem_cons h
    by_cases h2 : seq.get ⟨c, h⟩ ≤ t
    · rw [if_pos h2]
      simp only [specDrainCount, hd, List.takeWhile_cons]
      simp only [decide_eq_true h2]
      simp only [if_true, List.length_cons]
      exact Nat.min_eq_left (by omega)
    · rw [if_neg h2]
      simp only [specDrainCount, hd, List.takeWhile_cons]
      simp only [decide_eq_false h2]
      simp only [Bool.false_eq_true, if_false, List.length_nil]
      exact Nat.min_eq_right (by omega)
  · rw [dif_neg h, specDrainCount_of_le seq c t (Nat.le_of_not_lt h)]
    exact Nat.min_eq_right (by omega)

lemma replayStep_cursor (lidar rgb : List ℚ) (i : ℕ) (t : ℚ) (s : ℕ × ℕ) :
    (replayStep lidar rgb i t s).1.1 = s.1 + min 1 (specDrainCount lidar s.1 t) ∧
    (replayStep lidar rgb i t s).1.2 = s.2 + min 1 (specDrainCount rgb s.2 t) := by
  rw [min_one_drain, min_one_drain]
  constructor
  · by_cases h : s.1 < lidar.length
    · by_cases h2 : lidar.get ⟨s.1, h⟩ ≤ t <;>
        rw [List.get_eq_getElem] at h2 <;> simp [replayStep, h, h2]
    · simp [replayStep, h]
  · by_cases h : s.2 < rgb.length
    · by_cases h2 : rgb.get ⟨s.2, h⟩ ≤ t <;>
        rw [List.get_eq_getElem] at h2 <;> simp [replayStep, h, h2]
    · simp [replayStep, h]

lemma replayStep_emits (lidar rgb : List ℚ) (i : ℕ) (t : ℚ) (s : ℕ × ℕ) :
    (replayStep lidar rgb i t s).2.countP Emit.isRef = 1 ∧
    (replayStep lidar rgb i t s).2.countP Emit.isLid =
      min 1 (specDrainCount lidar s.1 t) ∧
    (replayStep lidar rgb i t s).2.countP Emit.isRgb =
      min 1 (specDrainCount rgb s.2 t) := by
  rw [min_one_drain, min_one_drain]
  by_cases h1 : s.1 < lidar.length
  · by_cases h2 : lidar.get ⟨s.1, h1⟩ ≤ t <;> rw [List.get_eq_getElem] at h2 <;>
    · by_cases h3 : s.2 < rgb.length
      · by_cases h4 : rgb.get ⟨s.2, h3⟩ ≤ t <;> rw [List.get_eq_getElem] at h4 <;>
          simp [replayStep, h1, h2, h3, h4, List.countP_cons, List.countP_append,
            Emit.isRef, Emit.isLid, Emit.isRgb]
      · simp [replayStep, h1, h2, h3, List.countP_cons, List.countP_append,
          Emit.isRef, Emit.isLid, Emit.isRgb]
  · by_cases h3 : s.2 < rgb.length
    · by_cases h4 : rgb.get ⟨s.2, h3⟩ ≤ t <;> rw [List.get_eq_getElem] at h4 <;>
        simp [replayStep, h1, h3, h4, List.countP_cons, List.countP_append,
          Emit.isRef, Emit.isLid, Emit.isRgb]
    · simp [replayStep, h1, h3, List.countP_cons, List.countP_append,
        Emit.isRef, Emit.isLid, Emit.isRgb]

lemma replayStep_le (lidar rgb : List ℚ) (i : ℕ) (t : ℚ) (s : ℕ × ℕ)
    (hL : s.1 ≤ lidar.length) (hR : s.2 ≤ rgb.length) :
    (replayStep lidar rgb i t s).1.1 ≤ lidar.length ∧
    (replayStep lidar rgb i t s).1.2 ≤ rgb.length := by
  obtain ⟨c1, c2⟩ := replayStep_cursor lidar rgb i t s
  constructor
  · rw [c1]
    rcases Nat.lt_or_ge s.1 lidar.length with h | h
    · have : min 1 (specDrainCount lidar s.1 t) ≤ 1 := Nat.min_le_left _ _
      omega
    · rw [specDrainCount_of_le lidar s.1 t h]
      omega
  · rw [c2]
    rcases Nat.lt_or_ge s.2 rgb.length with h | h
    · have : min 1 (specDrainCount rgb s.2 t) ≤ 1 := Nat.min_le_left _ _
      omega
    · rw [specDrainCount_of_le rgb s.2 t h]
      omega

lemma replayAux_bound_mono (lidar rgb : List ℚ) :
    ∀ (ts : List ℚ) (i : ℕ) (s : ℕ × ℕ), s.1 ≤ lidar.length → s.2 ≤ rgb.length →
      (replayAux lidar rgb i ts s).1.1 ≤ lidar.length ∧
      (replayAux lidar rgb i ts s).1.2 ≤ rgb.length ∧
      s.1 ≤ (replayAux lidar rgb i ts s).1.1 ∧
      s.2 ≤ (replayAux lidar rgb i ts s).1.2 := by
  intro ts
  induction ts with
  | nil => intro i s hL hR; exact ⟨hL, hR, Nat.le_refl _, Nat.le_refl _⟩
  | cons t ts ih =>
    intro i s hL hR
    obtain ⟨b1, b2⟩ := replayStep_le lidar rgb i t s hL hR
    obtain ⟨m1, m2⟩ := replayStep_cursor lidar rgb i t s
    obtain ⟨i1, i2, i3, i4⟩ := ih (i + 1) (replayStep lidar rgb i t s).1 b1 b2
    exact ⟨i1, i2, Nat.le_trans (by omega) i3, Nat.le_trans (by omega) i4⟩

lemma replayAux_refCount (lidar rgb : List ℚ) :
    ∀ (ts : List ℚ) (i : ℕ) (s : ℕ × ℕ),
      (replayAux lidar rgb i ts s).2.countP Emit.isRef = ts.length := by
  intro ts
  induction ts with
  | nil => intro i s; rfl
  | cons t ts ih =>
    intro i s
    have hstep := (replayStep_emits lidar rgb i t s).1
    simp only [replayAux, List.countP_append, hstep, ih, List.length_cons]
    omega

lemma aiVehicle_injective : Function.Injective Actor.aiVehicle := by
  intro a b h
  simpa using h

lemma nodup_vehicles (v : ℕ) : ((List.range v).map Actor.aiVehicle).Nodup :=
  (List.nodup_range v).map aiVehicle_injective

lemma pairwise_disjoint_ped (w : ℕ) :
    (List.range w).Pairwise (Function.onFun List.Disjoint
      (fun j => [Actor.pedController j, Actor.pedWalker j])) := by
  refine (List.pairwise_lt_range w).imp ?_
  intro i j hij
  intro a ha hb
  simp only [List.mem_cons, List.mem_singleton, List.not_mem_nil, or_false] at ha hb
  rcases ha with rfl | rfl <;> rcases hb with hb | hb <;> simp at hb <;> omega

lemma nodup_peds (w : ℕ) :
    ((List.range w).flatMap
      (fun j => [Actor.pedController j, Actor.pedWalker j])).Nodup :=
  List.nodup_flatMap.mpr ⟨fun x _ => by simp, pairwise_disjoint_ped w⟩

lemma disj_ego_veh (p : Bool) (v : ℕ) :
    (egoDestroyTrace p).Disjoint ((List.range v).map Actor.aiVehicle) := by
  intro a ha hb
  simp only [List.mem_map] at hb
  obtain ⟨i, -, rfl⟩ := hb
  cases p <;> simp [egoDestroyTrace, egoSensorsTrace] at ha

lemma disj_ego_ped (p : Bool) (w : ℕ) :
    (egoDestroyTrace p).Disjoint ((List.range w).flatMap
      (fun j => [Actor.pedController j, Actor.pedWalker j])) := by
  intro a ha hb
  simp only [List.mem_flatMap, List.mem_cons, List.mem_singleton,
    List.not_mem_nil, or_false] at hb
  obtain ⟨j, -, hb⟩ := hb
  rcases hb with rfl | rfl <;> cases p <;> simp [egoDestroyTrace, egoSensorsTrace] at ha

lemma disj_veh_ped (v w : ℕ) :
    ((List.range v).map Actor.aiVehicle).Disjoint ((List.range w).flatMap
      (fun j => [Actor.pedController j, Actor.pedWalker j])) := by
  intro a ha hb
  simp only [List.mem_map] at ha
  obtain ⟨i, -, rfl⟩ := ha
  simp at hb

lemma ego_nodup (p : Bool) : (egoDestroyTrace p).Nodup := by
  cases p <;> decide

lemma teardown_nodup (p : Bool) (v w : ℕ) : (teardownTrace p v w).Nodup := by
  unfold teardownTrace
  refine List.nodup_append.mpr ⟨List.nodup_append.mpr
    ⟨ego_nodup p, nodup_vehicles v, disj_ego_veh p v⟩, nodup_peds w, ?_⟩
  rw [List.disjoint_append_left]
  exact ⟨disj_ego_ped p w, disj_veh_ped v w⟩

lemma mem_teardown_iff (p : Bool) (v w : ℕ) (a : Actor) :
    a ∈ teardownTrace p v w ↔ a ∈ spawnedActors p v w := by
  cases p <;>
    simp [teardownTrace, spawnedActors, egoDestroyTrace, egoSensorsTrace,
      List.mem_append, List.mem_map, List.mem_flatMap] <;>
    aesop

lemma ped_chunk_sublist (w i : ℕ) (h : i < w) :
    List.Sublist [Actor.pedController i, Actor.pedWalker i]
      ((List.range w).flatMap
        (fun j => [Actor.pedController j, Actor.pedWalker j])) := by
  have hm : [Actor.pedController i, Actor.pedWalker i] ∈
      (List.range w).map (fun j => [Actor.pedController j, Actor.pedWalker j]) :=
    List.mem_map.mpr ⟨i, List.mem_range.mpr h, rfl⟩
  have := List.sublist_flatten_of_mem hm
  rwa [← List.flatMap_def] at this

lemma sensor_before_vehicle (p : Bool) (a : Actor) (h : a ∈ egoSensorsTrace p) :
    List.Sublist [a, Actor.egoVehicle] (egoDestroyTrace p) := by
  unfold egoDestroyTrace
  exact List.Sublist.append (List.singleton_sublist.mpr h) (List.Sublist.refl _)

lemma spawnLoop_all_fail (j : ℕ) : spawnLoop 1 (List.replicate j false) 0 = (j, 0) := by
  induction j with
  | zero => rfl
  | succ j ih => simp [List.replicate_succ, spawnLoop, ih]

/-! ## Claim theorems -/

/-- C1, counterexample: the claim says a single reference step drains every
not-yet-emitted frame of a modality with timestamp at or below the reference
timestamp.  With reference timestamps `[10]` and LiDAR timestamps `[1, 2]`
both LiDAR frames are eligible at reference index 0 (`specDrainCount` is 2),
yet the replay loop of `visualize_recording.py` advances the LiDAR cursor
only once, because the code guards the emission with `if`, not `while`. -/
theorem C1_counterexample :
    (replayRun [10] [1, 2] []).1.1 = 1 ∧
    specDrainCount [(1 : ℚ), 2] 0 10 = 2 ∧
    (replayRun [10] [1, 2] []).1.1 ≠ specDrainCount [(1 : ℚ), 2] 0 10 := by
  refine ⟨?_, ?_, ?_⟩ <;> decide

/-- C1, amended: after emitting the reference frame, the replay loop emits,
for each remaining modality (point cloud, color), at most one frame per
reference step — the frame at the cursor, exactly when it exists and its
timestamp is at or below the reference timestamp — and advances that
modality's cursor by one exactly when it emits (`min 1 (specDrainCount …)`
instead of the claimed `specDrainCount …`). -/
theorem C1_amended_single_advance :
    ∀ (lidar rgb : List ℚ) (i : ℕ) (t : ℚ) (s : ℕ × ℕ),
      (replayStep lidar rgb i t s).1.1 = s.1 + min 1 (specDrainCount lidar s.1 t) ∧
      (replayStep lidar rgb i t s).1.2 = s.2 + min 1 (specDrainCount rgb s.2 t) ∧
      (replayStep lidar rgb i t s).2.countP Emit.isLid =
        min 1 (specDrainCount lidar s.1 t) ∧
      (replayStep lidar rgb i t s).2.countP Emit.isRgb =
        min 1 (specDrainCount rgb s.2 t) := by
  intro lidar rgb i t s
  obtain ⟨c1, c2⟩ := replayStep_cursor lidar rgb i t s
  obtain ⟨-, e2, e3⟩ := replayStep_emits lidar rgb i t s
  exact ⟨c1, c2, e2, e3⟩

/-- C2, counterexample: the claim asserts `keep_every ≥ 1` for every
positive full rate and every positive target rate, but
`generate_sequence.py` line 89 computes `args.hz // args.lidar_hz` with no
constraint between the two: for `hz = 10` and `lidar_hz = 20` (both
positive) the factor is 0, so the retention test `c % keep_every` would be
a modulo by zero. -/
theorem C2_counterexample_keep_zero :
    (0 : ℚ) < 10 ∧ (0 : ℚ) < 20 ∧ keepLidarEveryXIdx 10 20 = 0 ∧
    ¬(1 ≤ keepLidarEveryXIdx 10 20) := by
  have h : keepLidarEveryXIdx 10 20 = 0 := by
    rw [keepLidarEveryXIdx, Int.floor_eq_iff]
    norm_num
  exact ⟨by decide, by decide, h, by rw [h]; decide⟩

/-- C2, amended: for every configuration whose target rate is positive and
at most the full tick rate, `keep_every = ⌊full_rate / target_rate⌋ ≥ 1`;
and when `keep_every = 1` every MergedCloud is retained, so the decimated
sequence length equals the number of merged clouds formed. -/
theorem C2_amended_keep_pos :
    (∀ hz lidarHz : ℚ, 0 < lidarHz → lidarHz ≤ hz →
      1 ≤ keepLidarEveryXIdx hz lidarHz) ∧
    (∀ (n : ℕ) (arrivals : List (List Frame)),
      (lidarRun n 1 arrivals initLidarState).buffer.length =
        (lidarRun n 1 arrivals initLidarState).idx) := by
  constructor
  · intro hz lidarHz h0 hle
    rw [keepLidarEveryXIdx, Int.le_floor, Int.cast_one, le_div_iff₀ h0, one_mul]
    exact hle
  · intro n arrivals
    have h := lidarRun_count n 1 arrivals initLidarState rfl
    rw [h, countKeep_one]

/-- C2, witness for the amended claim at a concrete configuration. -/
theorem C2_amended_keep_pos_witness :
    (0 : ℚ) < 10 ∧ (10 : ℚ) ≤ 200 ∧ 1 ≤ keepLidarEveryXIdx 200 10 ∧
    (lidarRun 2 1 [[⟨[5], 0⟩], []] initLidarState).buffer.length =
      (lidarRun 2 1 [[⟨[5], 0⟩], []] initLidarState).idx :=
  ⟨by decide, by decide, C2_amended_keep_pos.1 200 10 (by decide) (by decide),
    C2_amended_keep_pos.2 2 [[⟨[5], 0⟩], []]⟩

/-- C3: with `tick_rate = 200`, `target_rate = 10`, `duration_discard = 3 s`,
`duration_record = 10 s` and split-emitter off, the run performs 600 discard
ticks and 2000 record ticks with `keep_every = 20`; the decimation counter is
incremented exactly once per MergedCloud formed and a cloud is retained iff
`c % keep_every == 0` at the decision; and a recording of 2000 record ticks,
each delivering one LiDAR frame, leaves exactly 100 decimated clouds. -/
theorem C3_scenario :
    ticksToDiscard 3 200 = 600 ∧
    ticksToRecord 10 200 = 2000 ∧
    keepLidarEveryXIdx 200 10 = 20 ∧
    lidarSubpacketsPerPcl false = 1 ∧
    (∀ (n k : ℕ) (s : LidarState) (c : Frame) (rest : List Frame),
      mergeStep n s.queue = some (c, rest) →
        (lidarTick n k s).idx = s.idx + 1 ∧
        (lidarTick n k s).buffer =
          (if s.idx % k = 0 then s.buffer ++ [c] else s.buffer)) ∧
    (∀ fs : List Frame, fs.length = 2000 →
      (lidarRun 1 20 (fs.map fun f => [f]) initLidarState).buffer.length = 100) := by
  refine ⟨?_, ?_, ?_, rfl, ?_, ?_⟩
  · rw [ticksToDiscard, pyInt, if_neg (by norm_num), Int.floor_eq_iff]
    norm_num
  · rw [ticksToRecord, pyInt, if_neg (by norm_num), Int.floor_eq_iff]
    norm_num
  · rw [keepLidarEveryXIdx, Int.floor_eq_iff]
    norm_num
  · intro n k s c rest hm
    rw [lidarTick_of_some n k s c rest hm]
    exact ⟨rfl, rfl⟩
  · intro fs hlen
    have h1 := lidarRun_count 1 20 (fs.map fun f => [f]) initLidarState rfl
    have h2 := (lidarRun_single 20 fs initLidarState rfl).1
    rw [h1, h2, hlen, countKeep_eq_ceil 20 (by omega)]
    decide

/-- C3, witness: the decimator-rule conjunct at a concrete state and the
2000-tick scenario at a concrete frame list. -/
theorem C3_scenario_witness :
    ((lidarTick 1 2 ⟨[⟨[1], 0⟩], 3, []⟩).idx = 3 + 1 ∧
      (lidarTick 1 2 ⟨[⟨[1], 0⟩], 3, []⟩).buffer =
        (if 3 % 2 = 0 then [] ++ [⟨[1], 0⟩] else [])) ∧
    (List.replicate 2000 (⟨[], 0⟩ : Frame)).length = 2000 ∧
    (lidarRun 1 20 ((List.replicate 2000 (⟨[], 0⟩ : Frame)).map fun f => [f])
      initLidarState).buffer.length = 100 :=
  ⟨C3_scenario.2.2.2.2.1 1 2 ⟨[⟨[1], 0⟩], 3, []⟩ ⟨[1], 0⟩ [] (by decide),
    List.length_replicate 2000 _,
    C3_scenario.2.2.2.2.2 _ (List.length_replicate 2000 _)⟩

/-- C4: with N sub-emitters (3 in Pandora mode, 1 otherwise), any tick on
which the LiDAR queue holds at least N frames pops exactly the first N in
FIFO order and concatenates their payloads positionally into one MergedCloud
whose payload length is the sum of the popped payload lengths and whose
timestamp is the first popped frame's; a tick with fewer than N queued
frames changes nothing. -/
theorem C4_stream_merger :
    lidarSubpacketsPerPcl true = 3 ∧ lidarSubpacketsPerPcl false = 1 ∧
    (∀ (n k : ℕ) (s : LidarState), 1 ≤ n →
      (s.queue.length < n → lidarTick n k s = s) ∧
      (n ≤ s.queue.length →
        (lidarTick n k s).queue = s.queue.drop n ∧
        ∃ c : Frame, mergeStep n s.queue = some (c, s.queue.drop n) ∧
          c.payload = ((s.queue.take n).map Frame.payload).flatten ∧
          c.payload.length =
            ((s.queue.take n).map (fun f => f.payload.length)).sum ∧
          c.timestamp = s.queue.headI.timestamp)) := by
  refine ⟨rfl, rfl, ?_⟩
  intro n k s hn
  constructor
  · intro hlt
    exact lidarTick_of_none n k s (mergeStep_of_lt n s.queue hlt)
  · intro hle
    cases hq : s.queue with
    | nil =>
      rw [hq] at hle
      simp at hle
      omega
    | cons f rest =>
      have hm := mergeStep_of_le n f rest (by rw [← hq]; exact hle)
      have hm2 : mergeStep n s.queue =
          some ({ payload := (((f :: rest).take n).map Frame.payload).flatten,
                  timestamp := f.timestamp }, (f :: rest).drop n) := by
        rw [hq]
        exact hm
      refine ⟨?_, _, hm, rfl, ?_, ?_⟩
      · rw [lidarTick_of_some n k s _ _ hm2]
      · simp [List.length_flatten, List.map_map, Function.comp_def]
      · rfl

/-- C4, witness: the merger at a concrete queue of four frames with N = 3,
and the no-action case with N = 5. -/
theorem C4_stream_merger_witness :
    ((3 : ℕ) ≤ ([⟨[1], 0⟩, ⟨[2, 3], 1⟩, ⟨[4], 2⟩, ⟨[5], 3⟩] : List Frame).length ∧
      (lidarTick 3 7 ⟨[⟨[1], 0⟩, ⟨[2, 3], 1⟩, ⟨[4], 2⟩, ⟨[5], 3⟩], 0, []⟩).queue =
        ([⟨[1], 0⟩, ⟨[2, 3], 1⟩, ⟨[4], 2⟩, ⟨[5], 3⟩] : List Frame).drop 3) ∧
    (([⟨[1], 0⟩, ⟨[2, 3], 1⟩, ⟨[4], 2⟩, ⟨[5], 3⟩] : List Frame).length < 5 ∧
      lidarTick 5 7 ⟨[⟨[1], 0⟩, ⟨[2, 3], 1⟩, ⟨[4], 2⟩, ⟨[5], 3⟩], 0, []⟩ =
        ⟨[⟨[1], 0⟩, ⟨[2, 3], 1⟩, ⟨[4], 2⟩, ⟨[5], 3⟩], 0, []⟩) :=
  ⟨⟨by decide,
      ((C4_stream_merger.2.2 3 7 ⟨[⟨[1], 0⟩, ⟨[2, 3], 1⟩, ⟨[4], 2⟩, ⟨[5], 3⟩], 0, []⟩
        (by decide)).2 (by decide)).1⟩,
    ⟨by decide,
      (C4_stream_merger.2.2 5 7 ⟨[⟨[1], 0⟩, ⟨[2, 3], 1⟩, ⟨[4], 2⟩, ⟨[5], 3⟩], 0, []⟩
        (by decide)).1 (by decide)⟩⟩

/-- C5: `clear_sensor_queues()` runs between the last warm-up tick and the
first recording tick and empties all four sensor queues, so the state
entering the recording loop is independent of everything the callbacks
pushed during warm-up — hence no warm-up frame can appear in any of the four
final recording buffers (the session output depends only on the
record-phase arrivals). -/
theorem C5_warmup_isolation :
    ∀ (n k : ℕ) (warm other record : List Arrivals),
      clearSensorQueues (warmPhase warm initSession) = initSession ∧
      session n k warm record = session n k other record := by
  intro n k w o r
  refine ⟨clear_after_warm w, ?_⟩
  unfold session
  rw [clear_after_warm, clear_after_warm]

/-- C6: the replay cursors start at (0, 0), are non-decreasing at every
reference step, never exceed their sequence's length, the loop performs
exactly one reference emission per events index (R in total), and an empty
modality (M = 0) leaves its cursor at 0 without preventing completion. -/
theorem C6_replay_invariants :
    ∀ (events lidar rgb : List ℚ),
      (replayRun events lidar rgb).1.1 ≤ lidar.length ∧
      (replayRun events lidar rgb).1.2 ≤ rgb.length ∧
      (∀ (i : ℕ) (t : ℚ) (s : ℕ × ℕ),
        s.1 ≤ (replayStep lidar rgb i t s).1.1 ∧
        s.2 ≤ (replayStep lidar rgb i t s).1.2) ∧
      (replayRun events lidar rgb).2.countP Emit.isRef = events.length ∧
      (replayRun events [] rgb).1.1 = 0 := by
  intro events lidar rgb
  obtain ⟨b1, b2, -, -⟩ :=
    replayAux_bound_mono lidar rgb events 0 (0, 0) (by omega) (by omega)
  refine ⟨b1, b2, ?_, replayAux_refCount lidar rgb events 0 (0, 0), ?_⟩
  · intro i t s
    obtain ⟨c1, c2⟩ := replayStep_cursor lidar rgb i t s
    constructor <;> omega
  · have h0 := (replayAux_bound_mono [] rgb events 0 (0, 0) (by simp) (by omega)).1
    simpa using h0

/-- C7, counterexample: the claim says a failure while appending the index
row is logged and not propagated, but the `csv` append in
`generate_sequence.py` lines 212-214 has no handler: with the archive
written successfully and the append failing, the session result is that
error, not success. -/
theorem C7_counterexample_propagates :
    sessionTail (Except.ok ()) (Except.error "io") = (Except.error "io", true) ∧
    (Except.error "io" : Except String Unit) ≠ Except.ok () := by
  exact ⟨rfl, by simp⟩

/-- C7, amended: a failure while appending the IndexRecord row propagates to
the caller (the session fails with that error), while the archive write has
already completed and remains on disk. -/
theorem C7_amended_propagation :
    ∀ e : String, sessionTail (Except.ok ()) (Except.error e) = (Except.error e, true) := by
  intro e
  rfl

/-- C8: whether the body finishes normally or fails anywhere in the warm-up
or recording loop, the `finally` teardown runs exactly once, destroys every
spawned actor exactly once and nothing else, destroys each pedestrian's
controller before the pedestrian itself, and destroys every ego sensor
before the ego vehicle. -/
theorem C8_teardown :
    ∀ (body : Except String Unit) (pandora : Bool) (nVeh nPed : ℕ),
      (runSession body pandora nVeh nPed).2 = teardownTrace pandora nVeh nPed ∧
      (∀ a ∈ spawnedActors pandora nVeh nPed,
        (runSession body pandora nVeh nPed).2.count a = 1) ∧
      (∀ a ∈ (runSession body pandora nVeh nPed).2,
        a ∈ spawnedActors pandora nVeh nPed) ∧
      (∀ i < nPed, List.Sublist [Actor.pedController i, Actor.pedWalker i]
        (runSession body pandora nVeh nPed).2) ∧
      (∀ a ∈ egoSensorsTrace pandora, List.Sublist [a, Actor.egoVehicle]
        (runSession body pandora nVeh nPed).2) := by
  intro body p v w
  have htr : (runSession body p v w).2 = teardownTrace p v w := by
    cases body with
    | ok u => rfl
    | error e => rfl
  refine ⟨htr, ?_, ?_, ?_, ?_⟩
  · intro a ha
    rw [htr]
    exact List.count_eq_one_of_mem (teardown_nodup p v w)
      ((mem_teardown_iff p v w a).mpr ha)
  · intro a ha
    rw [htr] at ha
    exact (mem_teardown_iff p v w a).mp ha
  · intro i hi
    rw [htr]
    refine (ped_chunk_sublist w i hi).trans ?_
    unfold teardownTrace
    exact List.sublist_append_right _ _
  · intro a ha
    rw [htr]
    refine (sensor_before_vehicle p a ha).trans ?_
    unfold teardownTrace
    exact (List.sublist_append_left _ _).trans (List.sublist_append_left _ _)

/-- C8, witness: the teardown guarantees at a concrete failed session with
Pandora mode, one AI vehicle and two pedestrians. -/
theorem C8_teardown_witness :
    (Actor.aiVehicle 0 ∈ spawnedActors true 1 2 ∧
      (runSession (Except.error "boom") true 1 2).2.count (Actor.aiVehicle 0) = 1) ∧
    (Actor.rgbCam ∈ (runSession (Except.error "boom") true 1 2).2 ∧
      Actor.rgbCam ∈ spawnedActors true 1 2) ∧
    ((0 : ℕ) < 2 ∧ List.Sublist [Actor.pedController 0, Actor.pedWalker 0]
      (runSession (Except.error "boom") true 1 2).2) ∧
    (Actor.dvs ∈ egoSensorsTrace true ∧ List.Sublist [Actor.dvs, Actor.egoVehicle]
      (runSession (Except.error "boom") true 1 2).2) :=
  ⟨⟨by decide, (C8_teardown (Except.error "boom") true 1 2).2.1 _ (by decide)⟩,
    ⟨by decide, (C8_teardown (Except.error "boom") true 1 2).2.2.1 _ (by decide)⟩,
    ⟨by decide, (C8_teardown (Except.error "boom") true 1 2).2.2.2.1 0 (by decide)⟩,
    ⟨by decide, (C8_teardown (Except.error "boom") true 1 2).2.2.2.2 _ (by decide)⟩⟩

/-- C9, counterexample: the claim says retrying is bounded by the number of
valid placements, with `PlacementExhausted` surfaced once they are
exhausted; but the spawn loop of `generate_sequence.py` has no bound and no
such error: with only 3 placements in the environment and every attempt
colliding, the loop performs a 4th attempt, registers nothing, raises
nothing, and would simply keep looping. -/
theorem C9_counterexample_unbounded :
    spawnLoop 1 (List.replicate 4 false) 0 = (4, 0) ∧
    ¬((4 : ℕ) ≤ 3) ∧
    (spawnLoop 1 (List.replicate 4 false) 0).2 < 1 := by
  refine ⟨?_, ?_, ?_⟩ <;> decide

/-- C9, amended: a colliding spawn attempt registers no entity and raises
no error, and the caller retries with a new placement — 5 collisions
followed by a success yield exactly one registered entity after 6 attempts;
the retrying is unbounded: as long as the target is unmet every further
collision just adds one more attempt, and a run of only collisions consumes
every attempt while registering nothing and surfacing no error. -/
theorem C9_amended_retry :
    spawnLoop 1 [false, false, false, false, false, true] 0 = (6, 1) ∧
    (∀ (target : ℕ) (os : List Bool) (n : ℕ), n < target →
      spawnLoop target (false :: os) n =
        ((spawnLoop target os n).1 + 1, (spawnLoop target os n).2)) ∧
    (∀ j : ℕ, spawnLoop 1 (List.replicate j false) 0 = (j, 0)) := by
  refine ⟨by decide, ?_, spawnLoop_all_fail⟩
  intro target os n h
  simp [spawnLoop, h]

/-- C9, witness for the amended claim: one colliding attempt at an empty
remainder with target 1. -/
theorem C9_amended_retry_witness :
    (0 : ℕ) < 1 ∧ spawnLoop 1 [false] 0 =
      ((spawnLoop 1 ([] : List Bool) 0).1 + 1, (spawnLoop 1 ([] : List Bool) 0).2) :=
  ⟨by decide, C9_amended_retry.2.1 1 [] 0 (by decide)⟩

/-- C10: the decimation counter starts at 0 (and the buffer empty), so the
first MergedCloud formed is always retained; and for every run in which m
MergedClouds are formed (the final counter value), the decimated buffer
holds exactly `⌈m / keep_every⌉ = (m + keep_every - 1) / keep_every`
clouds. -/
theorem C10_first_retained_ceil :
    initLidarState.idx = 0 ∧ initLidarState.buffer.length = 0 ∧
    (∀ (n k : ℕ) (arrivals : List (List Frame)), 1 ≤ k →
      (lidarRun n k arrivals initLidarState).buffer.length =
        ((lidarRun n k arrivals initLidarState).idx + k - 1) / k ∧
      (1 ≤ (lidarRun n k arrivals initLidarState).idx →
        1 ≤ (lidarRun n k arrivals initLidarState).buffer.length)) := by
  refine ⟨rfl, rfl, ?_⟩
  intro n k arrivals hk
  have h := lidarRun_count n k arrivals initLidarState rfl
  have hceil := countKeep_eq_ceil k hk (lidarRun n k arrivals initLidarState).idx
  constructor
  · rw [h, hceil]
  · intro h1
    rw [h, hceil, Nat.one_le_div_iff (by omega)]
    omega

/-- C10, witness: one tick delivering one frame with `keep_every = 20`
forms one cloud and retains it. -/
theorem C10_first_retained_ceil_witness :
    (1 : ℕ) ≤ 20 ∧
    (lidarRun 1 20 [[⟨[2], 1⟩]] initLidarState).buffer.length =
      ((lidarRun 1 20 [[⟨[2], 1⟩]] initLidarState).idx + 20 - 1) / 20 ∧
    1 ≤ (lidarRun 1 20 [[⟨[2], 1⟩]] initLidarState).idx ∧
    1 ≤ (lidarRun 1 20 [[⟨[2], 1⟩]] initLidarState).buffer.length :=
  ⟨by decide, (C10_first_retained_ceil.2.2 1 20 [[⟨[2], 1⟩]] (by decide)).1,
    by decide, (C10_first_retained_ceil.2.2 1 20 [[⟨[2], 1⟩]] (by decide)).2 (by decide)⟩

end SLED

